import Mathlib

/-!
Verification of the metrics/correlation core of the Jensen Huang Leather
Jacket Index repository.

The core operations under scrutiny are `calc_trailing` and `calc_pop` in
`src/app.py` (the primary service), the older variant `calc_trailing` in
`src/unnamed/part_000` ("script 2.py"), and the lag-correlation analyzer /
signal classifier described in the specification.

Embedding choices:
- A daily record enters these functions only through `d.get(field)`, an
  optional numeric value, so a series is embedded as `List (Option ℚ)`
  (newest first), or `List (Option ℚ × Option ℚ)` for the two-field
  analyzer.  Python floats are modelled by exact rationals.
- Python's `ZeroDivisionError` (raised by `a / b` with `b = 0`) and
  `IndexError` are modelled with `Except String`; a normal return value `v`
  becomes `Except.ok v`, and a Python `None` result becomes `Except.ok none`.
- Python truthiness of an optional float (`if d.get(field)`), which treats
  both `None` and `0` as false, is modelled explicitly where the source
  uses it.
-/

namespace App

/-- Division as Python performs it: `a / b` raises `ZeroDivisionError`
when `b = 0`, otherwise returns the quotient. -/
def pyDiv (a b : ℚ) : Except String ℚ :=
  if b = 0 then Except.error "ZeroDivisionError" else Except.ok (a / b)

/-- The list `[d[field] for d in data if d.get(field) is not None]` used by
both `calc_trailing` (as `valid_vals`) and `calc_pop` (as `valid_data`,
projected to the field) in `src/app.py`. -/
def validVals (s : List (Option ℚ)) : List ℚ :=
  s.filterMap id

/-- `calc_trailing` from `src/app.py` (lines 285-288):
`valid_vals = [d[field] for d in data if d.get(field) is not None]`,
`subset = valid_vals[:days]`,
`return sum(subset) / len(subset) if subset else 0`. -/
def calc_trailing (s : List (Option ℚ)) (days : ℕ) : Except String ℚ :=
  let subset := (validVals s).take days
  if subset.isEmpty then Except.ok 0
  else pyDiv subset.sum subset.length

/-- `calc_pop` from `src/app.py` (lines 290-303):
filter to the records where the field is present, return `None` when fewer
than 2 such records exist; with at least `days * 2` of them compare the
means of `valid_data[:days]` and `valid_data[days:days*2]`; otherwise
compare `valid_data[0][field]` against `valid_data[-1][field]`.  A zero
denominator in the final ratio yields `None` via Python truthiness
(`... if prev_avg else None`, `... if oldest else None`). -/
def calc_pop (s : List (Option ℚ)) (days : ℕ) : Except String (Option ℚ) :=
  let valid := validVals s
  if valid.length < 2 then Except.ok none
  else if days * 2 ≤ valid.length then
    let curr_subset := valid.take days
    let prev_subset := (valid.drop days).take days
    match pyDiv curr_subset.sum curr_subset.length with
    | Except.error e => Except.error e
    | Except.ok curr_avg =>
      match pyDiv prev_subset.sum prev_subset.length with
      | Except.error e => Except.error e
      | Except.ok prev_avg =>
        Except.ok (if prev_avg = 0 then none
                   else some ((curr_avg - prev_avg) / prev_avg * 100))
  else
    match valid.head?, valid.getLast? with
    | some latest, some oldest =>
        Except.ok (if oldest = 0 then none
                   else some ((latest - oldest) / oldest * 100))
    | _, _ => Except.error "IndexError"

end App

namespace Part000

/-- `calc_trailing` from `src/unnamed/part_000` ("script 2.py", lines
158-160): `vals = [d[field] for d in data if d.get(field)]` — note the
truthiness test, which drops records whose value is `0` as well as records
whose value is absent — then `sum(vals) / len(vals) if vals else 0`.
The caller slices the window (`recent_7 = daily_data[-7:]` etc.) before
calling, so this variant takes no window argument. -/
def calc_trailing (s : List (Option ℚ)) : ℚ :=
  let vals := s.filterMap (fun v => v.bind (fun x => if x = 0 then none else some x))
  if vals.isEmpty then 0 else vals.sum / vals.length

end Part000

namespace SpecSide

/-- Arithmetic mean of a list of values, `none` when the list is empty,
as used by the specification's window-mean formula. -/
def meanQ (l : List ℚ) : Option ℚ :=
  if l = [] then none else some (l.sum / l.length)

/-- The period-change policy exactly as claim C1 words it, with the regimes
keyed to the number of RECORDS in the series: fewer than 2 records gives
null; at least `2 * days` records gives the window-over-window formula over
the present values of the record slices `[0, days)` and `[days, 2 * days)`;
otherwise the two-point formula over the latest and oldest present values
of the entire series. -/
def popRecordsSpec (s : List (Option ℚ)) (days : ℕ) : Option ℚ :=
  if s.length < 2 then none
  else if days * 2 ≤ s.length then
    match meanQ ((s.take days).filterMap id),
          meanQ (((s.drop days).take days).filterMap id) with
    | some c, some p => if p = 0 then none else some ((c - p) / p * 100)
    | _, _ => none
  else
    match (s.filterMap id).head?, (s.filterMap id).getLast? with
    | some latest, some oldest =>
        if oldest = 0 then none else some ((latest - oldest) / oldest * 100)
    | _, _ => none

/-- The period-change policy restated over PRESENT values, i.e. claim C1
amended: the regimes are keyed to the number of records where the field is
present, the windows are the first and second blocks of `days` present
values, and the fallback compares the newest and oldest present values. -/
def popPresentSpec (s : List (Option ℚ)) (days : ℕ) : Option ℚ :=
  let vs := App.validVals s
  if vs.length < 2 then none
  else if days * 2 ≤ vs.length then
    match meanQ (vs.take days), meanQ ((vs.drop days).take days) with
    | some c, some p => if p = 0 then none else some ((c - p) / p * 100)
    | _, _ => none
  else
    match vs.head?, vs.getLast? with
    | some latest, some oldest =>
        if oldest = 0 then none else some ((latest - oldest) / oldest * 100)
    | _, _ => none

/-- The trailing mean exactly as claim C2 words it: the mean of the present
values among the first `days` RECORDS of the series, `none` when that
record window holds no present value. -/
def trailingRecordsSpec (s : List (Option ℚ)) (days : ℕ) : Option ℚ :=
  meanQ ((s.take days).filterMap id)

end SpecSide

namespace Analyzer

/-!
Modelled from the spec: the repository's `LagCorrelationAnalyzer` and
`SignalClassifier` (spec sections 4.3 and 4.4) are not present under
`src/` — the `get_correlation` route in `src/unnamed/part_000` returns a
hard-coded report and no file implements the lag scan — so the analyzer
and classifier are modelled from the spec's wording.

The Pearson coefficient `r` of two slices is irrational in general
(`r = cov / sqrt(varX * varY)`).  To stay inside exact, executable
arithmetic, `r` is represented by its signed square
`sign(r) * r² = cov * |cov| / (varX * varY)`, the image of `r` under the
strictly monotone map `t ↦ t * |t|`.  The lag chosen by "track the lag
with the maximum r" and the reported `r²` (recovered as the absolute
value of the signed square) are unchanged under this encoding; the
spec's "if the correlation routine yields not-a-number (zero-variance
slice), treat the coefficient as 0" becomes the `d = 0` branch.  The
two-tailed p-value comes from an external statistics routine the spec
does not define, so it is a parameter `pf` of `analyze`.
-/

/-- Modelled from the spec: the correlation report — best lag, `r²`,
two-tailed p-value, qualitative lead-time label — together with the
paired-sample count the classifier's first rule consults. -/
structure CorrelationReport where
  bestLag : ℕ
  r2 : ℚ
  p : ℚ
  leadLabel : String
  pairedCount : ℕ
deriving Repr, DecidableEq

/-- Modelled from the spec: the discrete signal vocabulary. -/
inductive Signal
  | INITIALIZING
  | NEUTRAL
  | SYNCHRONIZED
  | LEADING
  | BULLISH
  | BEARISH
deriving Repr, DecidableEq

/-- Modelled from the spec: step 1 of `analyze` — the aligned numeric
vectors, keeping only dates where both fields are present, in
descending-date order. -/
def pairedPoints (s : List (Option ℚ × Option ℚ)) : List (ℚ × ℚ) :=
  s.filterMap (fun r =>
    match r.1, r.2 with
    | some x, some y => some (x, y)
    | _, _ => none)

/-- Modelled from the spec: the signed square `sign(r) * r²` of the
Pearson coefficient of two equal-length slices, `0` when a slice has zero
variance (the not-a-number case). -/
def rSignedSq (xs ys : List ℚ) : ℚ :=
  let n : ℚ := xs.length
  let sx := xs.sum
  let sy := ys.sum
  let sxy := ((xs.zip ys).map (fun q => q.1 * q.2)).sum
  let sxx := (xs.map (fun x => x * x)).sum
  let syy := (ys.map (fun y => y * y)).sum
  let cov := n * sxy - sx * sy
  let d := (n * sxx - sx * sx) * (n * syy - sy * sy)
  if d = 0 then 0 else cov * |cov| / d

/-- Modelled from the spec: step 3's slices for candidate lag `L` —
`trackedSlice = tracked[L:]`, `referenceSlice = reference[0 : n - L]`. -/
def lagSlices (pairs : List (ℚ × ℚ)) (L : ℕ) : List ℚ × List ℚ :=
  ((pairs.map Prod.fst).drop L, (pairs.map Prod.snd).take (pairs.length - L))

/-- Modelled from the spec: the signed-square key of lag `L`, `none` when
fewer than 5 paired points remain after slicing (the lag is skipped). -/
def lagKey (pairs : List (ℚ × ℚ)) (L : ℕ) : Option ℚ :=
  let sl := lagSlices pairs L
  if sl.1.length < 5 then none else some (rSignedSq sl.1 sl.2)

/-- Modelled from the spec: one step of the scan — keep the running best
unless the candidate lag is evaluated and its key is strictly larger. -/
def scanStep (pairs : List (ℚ × ℚ)) (best : ℕ × Option ℚ) (L : ℕ) : ℕ × Option ℚ :=
  match lagKey pairs L with
  | none => best
  | some k =>
    match best.2 with
    | none => (L, some k)
    | some bk => if bk < k then (L, some k) else best

/-- Modelled from the spec: step 4 — scan lags `0` to `maxLag` inclusive,
tracking the lag with the maximum (signed-square encoded) `r`. -/
def bestLagScan (pairs : List (ℚ × ℚ)) (maxLag : ℕ) : ℕ × Option ℚ :=
  (List.range (maxLag + 1)).foldl (scanStep pairs) (0, none)

/-- Modelled from the spec: the lead-time label — `"0d (Real-time)"` for
lag 0, otherwise the lag followed by `"d"`. -/
def leadLabelOf (L : ℕ) : String :=
  if L = 0 then "0d (Real-time)" else toString L ++ "d"

/-- Modelled from the spec: `analyze` — below 10 paired points return the
insufficient-data report (`r² = 0`, `p = 1`, label `"N/A"`); otherwise
scan the lags and report the best one.  `pf` is the external p-value
routine applied at the chosen lag. -/
def analyze (pf : List (ℚ × ℚ) → ℕ → ℚ) (s : List (Option ℚ × Option ℚ))
    (maxLag : ℕ) : CorrelationReport :=
  let pairs := pairedPoints s
  if pairs.length < 10 then
    { bestLag := 0, r2 := 0, p := 1, leadLabel := "N/A", pairedCount := pairs.length }
  else
    let best := bestLagScan pairs maxLag
    { bestLag := best.1
      r2 := |best.2.getD 0|
      p := pf pairs best.1
      leadLabel := leadLabelOf best.1
      pairedCount := pairs.length }

/-- Modelled from the spec: a placeholder for the external p-value
routine, usable at concrete instances whose claims do not constrain p. -/
def pZero : List (ℚ × ℚ) → ℕ → ℚ := fun _ _ => 0

/-- Modelled from the spec: `classify` — INITIALIZING below the minimum
sample size, NEUTRAL for `r² ≤ 0.3`, SYNCHRONIZED at lag 0, otherwise the
3-vs-3 trend call (BULLISH/BEARISH with at least 7 tracked points, LEADING
with fewer). -/
def classify (rep : CorrelationReport) (s : List (Option ℚ × Option ℚ)) : Signal :=
  if rep.pairedCount < 10 then Signal.INITIALIZING
  else if rep.r2 ≤ 3 / 10 then Signal.NEUTRAL
  else if rep.bestLag = 0 then Signal.SYNCHRONIZED
  else
    let tv := s.filterMap Prod.fst
    if 7 ≤ tv.length then
      if ((tv.drop 3).take 3).sum / 3 < (tv.take 3).sum / 3 then Signal.BULLISH
      else Signal.BEARISH
    else Signal.LEADING

/-- Concrete input for claim C4: 15 records with both fields present; the
tracked field reproduces the reference field delayed by 3 records, so the
slices at lag 3 coincide and the Pearson coefficient there is exactly 1. -/
def c4series : List (Option ℚ × Option ℚ) :=
  [(some 2, some 3), (some 7, some 1), (some 1, some 4),
   (some 3, some 1), (some 1, some 5), (some 4, some 9),
   (some 1, some 2), (some 5, some 6), (some 9, some 5),
   (some 2, some 3), (some 6, some 5), (some 5, some 8),
   (some 3, some 9), (some 5, some 7), (some 8, some 2)]

end Analyzer

/-! ### Helper lemmas -/

@[simp] lemma validVals_nil : App.validVals [] = [] := rfl

@[simp] lemma validVals_cons_none (s : List (Option ℚ)) :
    App.validVals (none :: s) = App.validVals s := rfl

@[simp] lemma validVals_cons_some (x : ℚ) (s : List (Option ℚ)) :
    App.validVals (some x :: s) = x :: App.validVals s := rfl

lemma meanQ_nil : SpecSide.meanQ [] = none := rfl

lemma meanQ_cons (x : ℚ) (l : List ℚ) :
    SpecSide.meanQ (x :: l) = some ((x :: l).sum / (x :: l).length) := by
  simp [SpecSide.meanQ]

lemma calc_trailing_eq (s : List (Option ℚ)) (days : ℕ) :
    App.calc_trailing s days =
      Except.ok (if ((App.validVals s).take days).isEmpty then 0
                 else ((App.validVals s).take days).sum /
                      ((App.validVals s).take days).length) := by
  unfold App.calc_trailing App.pyDiv
  by_cases h : ((App.validVals s).take days).isEmpty
  · simp [h]
  · have hne : ((App.validVals s).take days) ≠ [] := by
      simpa [List.isEmpty_iff] using h
    have hlen : ((App.validVals s).take days).length ≠ 0 := by
      simpa [List.length_eq_zero] using hne
    have hq : (((App.validVals s).take days).length : ℚ) ≠ 0 := by
      exact_mod_cast hlen
    simp [h, hq, -List.length_take]

lemma calc_pop_eq_ok (s : List (Option ℚ)) (days : ℕ) (hd : 1 ≤ days) :
    App.calc_pop s days = Except.ok (SpecSide.popPresentSpec s days) := by
  unfold App.calc_pop SpecSide.popPresentSpec App.pyDiv SpecSide.meanQ
  by_cases h1 : (App.validVals s).length < 2
  · simp [h1]
  · by_cases h2 : days * 2 ≤ (App.validVals s).length
    · have hc : ((App.validVals s).take days).length = days := by
        simp [List.length_take]; omega
      have hp : (((App.validVals s).drop days).take days).length = days := by
        simp [List.length_take, List.length_drop]; omega
      have hcne : ¬((App.validVals s).take days = []) := by
        intro h; rw [h] at hc; simp at hc; omega
      have hpne : ¬(((App.validVals s).drop days).take days = []) := by
        intro h; rw [h] at hp; simp at hp; omega
      have hdq : ((days : ℚ)) ≠ 0 := by
        exact_mod_cast (by omega : days ≠ 0)
      simp [h1, h2, hc, hp, hcne, hpne, hdq]
    · have hne : App.validVals s ≠ [] := by
        intro h; rw [h] at h1; simp at h1
      cases hh : (App.validVals s).head? with
      | none => exact absurd (List.head?_eq_none_iff.mp hh) hne
      | some latest =>
        cases hl : (App.validVals s).getLast? with
        | none => exact absurd (List.getLast?_eq_none_iff.mp hl) hne
        | some oldest => simp [h1, h2, hh, hl]

lemma scan_aux (pairs : List (ℚ × ℚ)) (lags : List ℕ) :
    ∀ acc : ℕ × Option ℚ,
      (∀ bk, acc.2 = some bk →
        ∃ rk, (lags.foldl (Analyzer.scanStep pairs) acc).2 = some rk ∧ bk ≤ rk) ∧
      (∀ L ∈ lags, ∀ k, Analyzer.lagKey pairs L = some k →
        ∃ rk, (lags.foldl (Analyzer.scanStep pairs) acc).2 = some rk ∧ k ≤ rk) := by
  induction lags with
  | nil =>
    intro acc
    refine ⟨fun bk h => ⟨bk, h, le_refl bk⟩, ?_⟩
    intro L hL
    exact absurd hL (List.not_mem_nil L)
  | cons L0 rest ih =>
    intro acc
    have hstep : ∀ bk, acc.2 = some bk →
        ∃ kk, (Analyzer.scanStep pairs acc L0).2 = some kk ∧ bk ≤ kk := by
      intro bk h
      unfold Analyzer.scanStep
      cases hk : Analyzer.lagKey pairs L0 with
      | none => exact ⟨bk, h, le_refl bk⟩
      | some k =>
        rw [h]
        by_cases hlt : bk < k
        · exact ⟨k, by simp [hlt], le_of_lt hlt⟩
        · exact ⟨bk, by simp [hlt, h], le_refl bk⟩
    constructor
    · intro bk h
      obtain ⟨kk, hkk, hbk⟩ := hstep bk h
      obtain ⟨rk, hrk, hkr⟩ := (ih (Analyzer.scanStep pairs acc L0)).1 kk hkk
      exact ⟨rk, by rw [List.foldl_cons]; exact hrk, le_trans hbk hkr⟩
    · intro L hL k hk
      rcases List.mem_cons.mp hL with rfl | hLrest
      · have hacc : ∃ kk, (Analyzer.scanStep pairs acc L).2 = some kk ∧ k ≤ kk := by
          unfold Analyzer.scanStep
          rw [hk]
          cases ha : acc.2 with
          | none => exact ⟨k, by simp [ha], le_refl k⟩
          | some bk =>
            by_cases hlt : bk < k
            · exact ⟨k, by simp [ha, hlt], le_refl k⟩
            · exact ⟨bk, by simp [ha, hlt], le_of_not_lt hlt⟩
        obtain ⟨kk, hkk, hkkk⟩ := hacc
        obtain ⟨rk, hrk, hkr⟩ := (ih (Analyzer.scanStep pairs acc L)).1 kk hkk
        exact ⟨rk, by rw [List.foldl_cons]; exact hrk, le_trans hkkk hkr⟩
      · obtain ⟨rk, hrk, hkr⟩ := (ih (Analyzer.scanStep pairs acc L0)).2 L hLrest k hk
        exact ⟨rk, by rw [List.foldl_cons]; exact hrk, hkr⟩

lemma bestLagScan_max (pairs : List (ℚ × ℚ)) (maxLag L : ℕ) (k : ℚ)
    (hL : L ≤ maxLag) (hk : Analyzer.lagKey pairs L = some k) :
    ∃ bk, (Analyzer.bestLagScan pairs maxLag).2 = some bk ∧ k ≤ bk := by
  obtain ⟨rk, hrk, hkr⟩ :=
    (scan_aux pairs (List.range (maxLag + 1)) (0, none)).2 L
      (List.mem_range.mpr (by omega)) k hk
  exact ⟨rk, by simpa [Analyzer.bestLagScan] using hrk, hkr⟩

/-! ### Claim theorems -/

/-- C1 counterexample: the claim keys the regimes to the number of RECORDS.
On the 4-record series `[10, missing, 30, 20]` with window 2 the claim's
record-based policy gives the window formula, -60, but `calc_pop` (which
counts only present values, here 3 < 4) falls back to the two-point
formula and returns -50. -/
theorem c1_counterexample :
    SpecSide.popRecordsSpec [some 10, none, some 30, some 20] 2 = some (-60) ∧
    App.calc_pop [some 10, none, some 30, some 20] 2 = Except.ok (some (-50)) ∧
    some (-60 : ℚ) ≠ some (-50 : ℚ) :=
  ⟨by norm_num [SpecSide.popRecordsSpec, meanQ_cons, List.filterMap_cons, -List.length_take],
   by norm_num [App.calc_pop, App.pyDiv, -List.length_take],
   by norm_num⟩

/-- C1 (amended): for every series, field and window N ≥ 1, `calc_pop`
implements the dual-regime policy with the regimes keyed to the number of
PRESENT values: null below 2 present values; the two-point formula
(newest vs oldest present value) below 2N present values; the
window-over-window formula `(curr - prior) / prior * 100` over the first
and second blocks of N present values from 2N present values on
(including exactly 2N), with a zero prior mean giving null — and no
error is raised. -/
theorem c1_theorem (s : List (Option ℚ)) (days : ℕ) (hd : 1 ≤ days) :
    App.calc_pop s days = Except.ok (SpecSide.popPresentSpec s days) :=
  calc_pop_eq_ok s days hd

/-- Witness for C1 at a concrete series and window. -/
theorem c1_witness :
    1 ≤ 2 ∧
    App.calc_pop [some 10, none, some 30, some 20] 2 =
      Except.ok (SpecSide.popPresentSpec [some 10, none, some 30, some 20] 2) :=
  ⟨by decide, c1_theorem [some 10, none, some 30, some 20] 2 (by decide)⟩

/-- C2 counterexample: on `[missing, 10, 20]` with window 2 the claim's
value (mean of present values among the first 2 records) is 10, but
`calc_trailing` takes the first 2 PRESENT values — drawing 20 from the
record beyond the window — and returns 15. -/
theorem c2_counterexample :
    App.calc_trailing [none, some 10, some 20] 2 = Except.ok 15 ∧
    SpecSide.trailingRecordsSpec [none, some 10, some 20] 2 = some 10 ∧
    (15 : ℚ) ≠ 10 :=
  ⟨by norm_num [App.calc_trailing, App.pyDiv, -List.length_take],
   by norm_num [SpecSide.trailingRecordsSpec, SpecSide.meanQ, List.filterMap_cons,
     -List.length_take],
   by norm_num⟩

/-- C2 (amended): whenever the series has at least one present value
inside the first `days` entries of its present-value subsequence,
`calc_trailing` returns the arithmetic mean of the first `days` PRESENT
values of the series — records beyond the first `days` records do
contribute when earlier records are missing. -/
theorem c2_theorem (s : List (Option ℚ)) (days : ℕ)
    (h : (App.validVals s).take days ≠ []) :
    App.calc_trailing s days =
      Except.ok (((App.validVals s).take days).sum /
                 ((App.validVals s).take days).length) := by
  rw [calc_trailing_eq]
  have h2 : ¬((App.validVals s).take days).isEmpty := by
    simpa [List.isEmpty_iff] using h
  simp [h2, -List.length_take]

/-- Witness for C2 at a concrete series and window. -/
theorem c2_witness :
    (App.validVals [none, some 10, some 20]).take 2 ≠ [] ∧
    App.calc_trailing [none, some 10, some 20] 2 =
      Except.ok (((App.validVals [none, some 10, some 20]).take 2).sum /
                 ((App.validVals [none, some 10, some 20]).take 2).length) :=
  ⟨by decide, c2_theorem [none, some 10, some 20] 2 (by decide)⟩

/-- C3: below 10 paired points `analyze` returns r² = 0, p = 1, lead
label "N/A", and the classifier returns INITIALIZING. -/
theorem c3_theorem (pf : List (ℚ × ℚ) → ℕ → ℚ) (s : List (Option ℚ × Option ℚ))
    (maxLag : ℕ) (h : (Analyzer.pairedPoints s).length < 10) :
    (Analyzer.analyze pf s maxLag).r2 = 0 ∧
    (Analyzer.analyze pf s maxLag).p = 1 ∧
    (Analyzer.analyze pf s maxLag).leadLabel = "N/A" ∧
    Analyzer.classify (Analyzer.analyze pf s maxLag) s =
      Analyzer.Signal.INITIALIZING := by
  unfold Analyzer.analyze Analyzer.classify
  simp [h]

/-- Witness for C3 at a concrete 2-record series. -/
theorem c3_witness :
    (Analyzer.pairedPoints [(some 1, some 2), (some 3, some 4)]).length < 10 ∧
    (Analyzer.analyze Analyzer.pZero [(some 1, some 2), (some 3, some 4)] 7).leadLabel = "N/A" ∧
    Analyzer.classify
      (Analyzer.analyze Analyzer.pZero [(some 1, some 2), (some 3, some 4)] 7)
      [(some 1, some 2), (some 3, some 4)] = Analyzer.Signal.INITIALIZING :=
  ⟨by decide,
   (c3_theorem Analyzer.pZero [(some 1, some 2), (some 3, some 4)] 7 (by decide)).2.2.1,
   (c3_theorem Analyzer.pZero [(some 1, some 2), (some 3, some 4)] 7 (by decide)).2.2.2⟩

lemma c4_len : (Analyzer.pairedPoints Analyzer.c4series).length = 15 := by
  norm_num [Analyzer.pairedPoints, Analyzer.c4series, List.filterMap_cons]

lemma c4_lagKey0 : Analyzer.lagKey (Analyzer.pairedPoints Analyzer.c4series) 0 =
    some (16 / 21793) := by
  norm_num [Analyzer.lagKey, Analyzer.lagSlices, Analyzer.rSignedSq, Analyzer.pairedPoints,
    Analyzer.c4series, List.filterMap_cons, List.zip_cons_cons, -List.length_take,
    -List.length_drop]

lemma c4_lagKey1 : Analyzer.lagKey (Analyzer.pairedPoints Analyzer.c4series) 1 =
    some (2601 / 104185) := by
  norm_num [Analyzer.lagKey, Analyzer.lagSlices, Analyzer.rSignedSq, Analyzer.pairedPoints,
    Analyzer.c4series, List.filterMap_cons, List.zip_cons_cons, -List.length_take,
    -List.length_drop]

lemma c4_lagKey2 : Analyzer.lagKey (Analyzer.pairedPoints Analyzer.c4series) 2 =
    some (10125 / 248272) := by
  norm_num [Analyzer.lagKey, Analyzer.lagSlices, Analyzer.rSignedSq, Analyzer.pairedPoints,
    Analyzer.c4series, List.filterMap_cons, List.zip_cons_cons, -List.length_take,
    -List.length_drop]

lemma c4_lagKey3 : Analyzer.lagKey (Analyzer.pairedPoints Analyzer.c4series) 3 =
    some 1 := by
  norm_num [Analyzer.lagKey, Analyzer.lagSlices, Analyzer.rSignedSq, Analyzer.pairedPoints,
    Analyzer.c4series, List.filterMap_cons, List.zip_cons_cons, -List.length_take,
    -List.length_drop]

lemma c4_lagKey4 : Analyzer.lagKey (Analyzer.pairedPoints Analyzer.c4series) 4 =
    some (-275 / 42336) := by
  norm_num [Analyzer.lagKey, Analyzer.lagSlices, Analyzer.rSignedSq, Analyzer.pairedPoints,
    Analyzer.c4series, List.filterMap_cons, List.zip_cons_cons, -List.length_take,
    -List.length_drop]

lemma c4_lagKey5 : Analyzer.lagKey (Analyzer.pairedPoints Analyzer.c4series) 5 =
    some (-49 / 8479) := by
  norm_num [Analyzer.lagKey, Analyzer.lagSlices, Analyzer.rSignedSq, Analyzer.pairedPoints,
    Analyzer.c4series, List.filterMap_cons, List.zip_cons_cons, -List.length_take,
    -List.length_drop]

lemma c4_lagKey6 : Analyzer.lagKey (Analyzer.pairedPoints Analyzer.c4series) 6 =
    some (147 / 988) := by
  norm_num [Analyzer.lagKey, Analyzer.lagSlices, Analyzer.rSignedSq, Analyzer.pairedPoints,
    Analyzer.c4series, List.filterMap_cons, List.zip_cons_cons, -List.length_take,
    -List.length_drop]

lemma c4_lagKey7 : Analyzer.lagKey (Analyzer.pairedPoints Analyzer.c4series) 7 =
    some (-22201 / 128169) := by
  norm_num [Analyzer.lagKey, Analyzer.lagSlices, Analyzer.rSignedSq, Analyzer.pairedPoints,
    Analyzer.c4series, List.filterMap_cons, List.zip_cons_cons, -List.length_take,
    -List.length_drop]

lemma c4_scan : Analyzer.bestLagScan (Analyzer.pairedPoints Analyzer.c4series) 7 =
    (3, some 1) := by
  have hr : List.range 8 = [0, 1, 2, 3, 4, 5, 6, 7] := rfl
  norm_num [Analyzer.bestLagScan, Analyzer.scanStep, hr, c4_lagKey0, c4_lagKey1,
    c4_lagKey2, c4_lagKey3, c4_lagKey4, c4_lagKey5, c4_lagKey6, c4_lagKey7,
    List.foldl_cons, List.foldl_nil]

/-- C4: the scan considers every lag 0..maxLag inclusive and the selected
key (the order-preserving signed-square encoding of r) dominates every
evaluated lag's key — maximum r, not maximum absolute r; and on the
concrete 15-record series whose tracked field is the reference field
delayed by 3 records, `analyze` selects best lag 3 with r² exactly 1. -/
theorem c4_theorem :
    (∀ (pairs : List (ℚ × ℚ)) (maxLag L : ℕ) (k : ℚ), L ≤ maxLag →
        Analyzer.lagKey pairs L = some k →
        ∃ bk, (Analyzer.bestLagScan pairs maxLag).2 = some bk ∧ k ≤ bk) ∧
    (Analyzer.analyze Analyzer.pZero Analyzer.c4series 7).bestLag = 3 ∧
    (Analyzer.analyze Analyzer.pZero Analyzer.c4series 7).r2 = 1 := by
  refine ⟨fun pairs maxLag L k hL hk => bestLagScan_max pairs maxLag L k hL hk, ?_, ?_⟩
  · simp [Analyzer.analyze, c4_len, c4_scan]
  · simp [Analyzer.analyze, c4_len, c4_scan]

/-- Witness for C4: the key of lag 3 on the concrete series is 1, and the
scan's selected key dominates it. -/
theorem c4_witness :
    ∃ bk, (Analyzer.bestLagScan (Analyzer.pairedPoints Analyzer.c4series) 7).2 = some bk ∧
      (1 : ℚ) ≤ bk :=
  c4_theorem.1 (Analyzer.pairedPoints Analyzer.c4series) 7 3 1 (by decide) c4_lagKey3

/-- C5 counterexample: in the `src/unnamed/part_000` variant of
`calc_trailing` a 0 value is falsy, hence excluded: on `[0, 10]` it
returns 10, not the mean 5 that would include the 0 observation — so in
that variant 0 IS treated as missing. -/
theorem c5_counterexample :
    Part000.calc_trailing [some 0, some 10] = 10 ∧ ((0 : ℚ) + 10) / 2 ≠ 10 :=
  ⟨by norm_num [Part000.calc_trailing, List.filterMap_cons], by norm_num⟩

/-- C5 (amended): in `src/app.py` a 0 value is a present observation —
`validVals` (the present-value list of both `calc_trailing` and
`calc_pop`) keeps it, `calc_trailing [0, 10]` averages it in (giving 5),
and `calc_pop` counts it inside its windows — while the secondary
`src/unnamed/part_000` variant excludes 0 by truthiness. -/
theorem c5_theorem :
    (∀ s : List (Option ℚ), App.validVals (some 0 :: s) = 0 :: App.validVals s) ∧
    App.calc_trailing [some 0, some 10] 2 = Except.ok 5 ∧
    App.calc_pop [some 30, some 0, some 10, some 20] 2 = Except.ok (some 0) := by
  refine ⟨fun s => ?_, by norm_num [App.calc_trailing, App.pyDiv, -List.length_take],
    by norm_num [App.calc_pop, App.pyDiv, -List.length_take]⟩
  simp

/-- Witness for C5 at a concrete tail. -/
theorem c5_witness :
    App.validVals [some 0, none] = 0 :: App.validVals [none] :=
  c5_theorem.1 [none]

/-- C6: whenever the ratio's denominator resolves to 0 — the prior-window
mean in the sufficient-history regime (a nonempty prior window with sum 0),
or the oldest present value in the fallback regime — `calc_pop` returns
null: no division-by-zero error, no infinity. -/
theorem c6_theorem (s : List (Option ℚ)) (days : ℕ) :
    (((App.validVals s).drop days).take days ≠ [] →
      days * 2 ≤ (App.validVals s).length →
      ((((App.validVals s).drop days).take days).sum = 0 →
        App.calc_pop s days = Except.ok none)) ∧
    (2 ≤ (App.validVals s).length →
      (App.validVals s).length < days * 2 →
      (App.validVals s).getLast? = some 0 →
      App.calc_pop s days = Except.ok none) := by
  constructor
  · intro hpne h2 hsum
    have hdrop : (App.validVals s).drop days ≠ [] := by
      intro h
      exact hpne (by rw [h]; simp)
    have hlt : days < (App.validVals s).length := List.length_lt_of_drop_ne_nil hdrop
    have hd : 1 ≤ days := by
      by_contra h0
      have hz : days = 0 := by omega
      rw [hz] at hpne
      simp at hpne
    rw [calc_pop_eq_ok s days hd]
    unfold SpecSide.popPresentSpec SpecSide.meanQ
    have h1 : ¬((App.validVals s).length < 2) := by omega
    have hclen : ((App.validVals s).take days).length = days := by
      simp [List.length_take]
      omega
    have hcne : ¬((App.validVals s).take days = []) := by
      intro h
      rw [h] at hclen
      simp at hclen
      omega
    simp [h1, h2, hcne, hpne, hsum]
  · intro hge hlt hlast
    have hd : 1 ≤ days := by omega
    rw [calc_pop_eq_ok s days hd]
    unfold SpecSide.popPresentSpec
    have h1 : ¬((App.validVals s).length < 2) := by omega
    have h2 : ¬(days * 2 ≤ (App.validVals s).length) := by omega
    have hne : App.validVals s ≠ [] := by
      intro h
      rw [h] at hge
      simp at hge
    cases hh : (App.validVals s).head? with
    | none => exact absurd (List.head?_eq_none_iff.mp hh) hne
    | some latest => simp [h1, h2, hh, hlast]

/-- Witness for C6: a zero prior-window mean and a zero oldest value both
yield null at concrete inputs. -/
theorem c6_witness :
    App.calc_pop [some 10, some 20, some 1, some (-1)] 2 = Except.ok none ∧
    App.calc_pop [some 5, some 0] 7 = Except.ok none :=
  ⟨(c6_theorem [some 10, some 20, some 1, some (-1)] 2).1 (by decide) (by decide)
     (by norm_num),
   (c6_theorem [some 5, some 0] 7).2 (by decide) (by decide) (by decide)⟩

/-- C7 counterexample: with window 0 and at least two present values,
`calc_pop` divides the empty current window's sum by its length 0 and
raises ZeroDivisionError — the claim's "every window size (including 0)"
fails for periodChange. -/
theorem c7_counterexample :
    App.calc_pop [some 1, some 2] 0 = Except.error "ZeroDivisionError" := by
  norm_num [App.calc_pop, App.pyDiv, -List.length_take]

/-- C7 (amended): `calc_trailing` terminates with an `ok` value for every
series and every window (including 0 and windows beyond the length), and
returns 0 on the empty series; `calc_pop` terminates with an `ok` value
for every series whenever the window is at least 1, returns null on the
empty series, and returns null whenever fewer than 2 present values
exist.  Only `calc_pop` at window 0 with at least 2 present values can
raise. -/
theorem c7_theorem (s : List (Option ℚ)) (days : ℕ) :
    (∃ q, App.calc_trailing s days = Except.ok q) ∧
    (s = [] → App.calc_trailing s days = Except.ok 0 ∧
      App.calc_pop s days = Except.ok none) ∧
    (1 ≤ days → ∃ r, App.calc_pop s days = Except.ok r) ∧
    ((App.validVals s).length < 2 → App.calc_pop s days = Except.ok none) := by
  refine ⟨⟨_, calc_trailing_eq s days⟩, ?_, ?_, ?_⟩
  · rintro rfl
    constructor
    · simp [App.calc_trailing]
    · simp [App.calc_pop]
  · intro hd
    exact ⟨_, calc_pop_eq_ok s days hd⟩
  · intro hlt
    unfold App.calc_pop
    simp [hlt]

/-- Witness for C7 on the empty series and on a window-1 request. -/
theorem c7_witness :
    App.calc_trailing [] 3 = Except.ok 0 ∧
    App.calc_pop [] 3 = Except.ok none ∧
    (∃ r, App.calc_pop [some 1, some 2, some 3] 1 = Except.ok r) :=
  ⟨((c7_theorem [] 3).2.1 rfl).1, ((c7_theorem [] 3).2.1 rfl).2,
   (c7_theorem [some 1, some 2, some 3] 1).2.2.1 (by decide)⟩

/-- C8 counterexample: on `[missing, 10]` with window 1 no record of the
1-record trailing window has the field present, yet `calc_trailing`
returns 10 (the first present value, drawn from beyond the window), not
0. -/
theorem c8_counterexample :
    App.calc_trailing [none, some 10] 1 = Except.ok 10 ∧ (10 : ℚ) ≠ 0 :=
  ⟨by norm_num [App.calc_trailing, App.pyDiv, -List.length_take], by norm_num⟩

/-- C8 (amended): `calc_trailing` returns exactly 0 — never null, never an
error — when the series holds no present value at all (all values missing
or the series empty), or when the window is 0; an all-missing PREFIX alone
does not trigger the 0 default because the window slice is taken over
present values. -/
theorem c8_theorem (s : List (Option ℚ)) (days : ℕ) :
    ((∀ v ∈ s, v = none) → App.calc_trailing s days = Except.ok 0) ∧
    App.calc_trailing s 0 = Except.ok 0 := by
  constructor
  · intro h
    have hv : App.validVals s = [] := by
      unfold App.validVals
      rw [List.filterMap_eq_nil_iff]
      intro a ha
      simpa using h a ha
    simp [App.calc_trailing, hv]
  · simp [App.calc_trailing]

/-- Witness for C8 on an all-missing series and on a window-0 request. -/
theorem c8_witness :
    App.calc_trailing [none, none, none] 7 = Except.ok 0 ∧
    App.calc_trailing [some 5, some 6] 0 = Except.ok 0 :=
  ⟨(c8_theorem [none, none, none] 7).1 (by decide), (c8_theorem [some 5, some 6] 0).2⟩

/-- C9: on the 14-record series with values 10 seven times then 20 seven
times (newest first) and window 7, `calc_pop` returns exactly -50
(current mean 10 against prior mean 20). -/
theorem c9_theorem :
    App.calc_pop
      [some 10, some 10, some 10, some 10, some 10, some 10, some 10,
       some 20, some 20, some 20, some 20, some 20, some 20, some 20] 7 =
      Except.ok (some (-50)) := by
  norm_num [App.calc_pop, App.pyDiv, -List.length_take]

/-- C10: inserting a record with an absent value anywhere leaves both
`calc_trailing` and `calc_pop` unchanged, and more generally both
operations depend only on the present-value subsequence `validVals` —
regime choice and window slicing count present values, not records. -/
theorem c10_theorem (pre post : List (Option ℚ)) (days : ℕ) :
    App.calc_trailing (pre ++ none :: post) days =
      App.calc_trailing (pre ++ post) days ∧
    App.calc_pop (pre ++ none :: post) days = App.calc_pop (pre ++ post) days ∧
    (∀ s t : List (Option ℚ), App.validVals s = App.validVals t →
      App.calc_trailing s days = App.calc_trailing t days ∧
      App.calc_pop s days = App.calc_pop t days) := by
  have congrT : ∀ s t : List (Option ℚ), App.validVals s = App.validVals t →
      App.calc_trailing s days = App.calc_trailing t days := by
    intro s t h
    unfold App.calc_trailing
    rw [h]
  have congrP : ∀ s t : List (Option ℚ), App.validVals s = App.validVals t →
      App.calc_pop s days = App.calc_pop t days := by
    intro s t h
    unfold App.calc_pop
    rw [h]
  have key : App.validVals (pre ++ none :: post) = App.validVals (pre ++ post) := by
    simp [App.validVals]
  exact ⟨congrT _ _ key, congrP _ _ key, fun s t h => ⟨congrT s t h, congrP s t h⟩⟩

/-- Witness for C10: dropping an interior missing record changes nothing
at a concrete input. -/
theorem c10_witness :
    App.calc_trailing [some 1, none, some 2] 1 = App.calc_trailing [some 1, some 2] 1 ∧
    App.calc_pop [some 1, none, some 2] 1 = App.calc_pop [some 1, some 2] 1 :=
  ⟨(c10_theorem [some 1] [some 2] 1).1, (c10_theorem [some 1] [some 2] 1).2.1⟩
